import Mathlib

/-!
Shallow embedding of `pypsd/sections.py` (PSD section decoders).

The byte source is a `List Nat` of bytes; a cursor is an index into it.
Decoders are functions `Bytes → Nat → Except PSDError (result × Nat)`
returning the decoded value together with the cursor position after the
decode, mirroring the sequential reads of the Python source.

The repository ships only `sections.py`; the base class `PSDParserBase`
(file `sectionbase.py`: the byte-cursor primitives and the numeric
constants) is not part of the given source tree, so those primitives are
modelled from the specification (§4.1 "Byte Cursor", §6 constants) and
are marked `Modelled from the spec:` below.  Everything else is a direct
translation of `sections.py`.
-/

namespace PyPSD

/-- A byte source: a list of bytes (each `< 256`; numeric readers reduce
entries mod 256 so that the model is total). -/
abbrev Bytes := List Nat

/-- A Python runtime value as it appears in `validate` calls: the decoded
fields are either integers or strings. -/
inductive PyVal where
  | int (i : Int)
  | str (s : String)
deriving Repr, DecidableEq

/-- Python truthiness of a value: `0` and `""` are falsy. -/
def PyVal.truthy : PyVal → Bool
  | .int i => i != 0
  | .str s => s != ""

/-- Truthiness of an optional argument (`None` is falsy). -/
def truthyOpt : Option PyVal → Bool
  | none => false
  | some v => v.truthy

/-- Truthiness of an optional inclusive range `(lo, hi)`: a Python
`range` is truthy iff it is non-empty. -/
def truthyRange : Option (Int × Int) → Bool
  | none => false
  | some (lo, hi) => lo ≤ hi

/-- Truthiness of an optional list: a Python list is truthy iff non-empty. -/
def truthyList : Option (List Int) → Bool
  | none => false
  | some l => l != []

/-- Membership of a value in an inclusive integer range (Python
`value in range(lo, hi+1)`; a string is never a member). -/
def inPyRange (v : PyVal) (lo hi : Int) : Bool :=
  match v with
  | .int i => lo ≤ i && i ≤ hi
  | .str _ => false

/-- Membership of a value in an integer list (Python `value in list`;
a string is never a member of an integer list). -/
def inPyList (v : PyVal) (l : List Int) : Bool :=
  match v with
  | .int i => l.contains i
  | .str _ => false

/-- The decode failures raised by `sections.py`, structured by raise
site.  In the spec's error taxonomy (§7): `formatMismatch` is
FormatMismatch (the `mustBe` branch of `validate`), `rangeViolation` and
`rangeViolationSet` are the two shapes of RangeViolation (the `range`
and `list` branches of `validate`), `truncation` is Truncation (a read
past end of source), `keyError` is an out-of-table dictionary lookup
(color-mode map, blend map, clipping map) and `assertionError` a failed
`assert` (blend signature).  The source has no raise site corresponding
to the spec's StructuralInconsistency. -/
inductive PSDError where
  | formatMismatch (label : String) (expected observed : PyVal)
  | rangeViolation (label : String) (lo hi : Int) (observed : PyVal)
  | rangeViolationSet (label : String) (allowed : List Int) (observed : PyVal)
  | keyError
  | assertionError
  | truncation (requested available : Nat)
deriving Repr, DecidableEq

/-- `validate(label, value, range=None, mustBe=None, list=None)` from
`sections.py`: if `mustBe` is truthy, check exact equality; elif `range`
is truthy, check range membership; elif `list` is truthy, check list
membership; otherwise no check.  (The two leading `assert`s of the
source only require `label` and `value` to be present, which they are by
construction here.) -/
def validate (label : String) (value : PyVal) (range : Option (Int × Int))
    (mustBe : Option PyVal) (list : Option (List Int)) : Except PSDError Unit :=
  if truthyOpt mustBe then
    match mustBe with
    | some m => if value = m then .ok () else .error (.formatMismatch label m value)
    | none => .ok ()
  else if truthyRange range then
    match range with
    | some (lo, hi) =>
        if inPyRange value lo hi then .ok ()
        else .error (.rangeViolation label lo hi value)
    | none => .ok ()
  else if truthyList list then
    match list with
    | some l =>
        if inPyList value l then .ok ()
        else .error (.rangeViolationSet label l value)
    | none => .ok ()
  else .ok ()

/-! ### Byte-cursor primitives (from `PSDParserBase`, not in the given
source tree). -/

/-- Modelled from the spec: §4.1 — reading past end-of-source fails with
a truncation error naming the requested size and the bytes actually
available; otherwise the next `n` bytes are returned and the cursor
advances by `n`. -/
def readBytes (s : Bytes) (p n : Nat) : Except PSDError (Bytes × Nat) :=
  if p + n ≤ s.length then .ok ((s.drop p).take n, p + n)
  else .error (.truncation n (s.length - p))

/-- Big-endian interpretation of a byte list (each entry reduced mod 256). -/
def bytesToNatBE (bs : Bytes) : Nat :=
  bs.foldl (fun acc b => acc * 256 + b % 256) 0

/-- Reinterpret an unsigned 16-bit value as signed (two's complement). -/
def toSigned16 (u : Nat) : Int :=
  if u % 65536 < 32768 then (u % 65536 : Nat) else (u % 65536 : Nat) - 65536

/-- Reinterpret an unsigned 32-bit value as signed (two's complement). -/
def toSigned32 (u : Nat) : Int :=
  if u % 4294967296 < 2147483648 then (u % 4294967296 : Nat)
  else (u % 4294967296 : Nat) - 4294967296

/-- Modelled from the spec: §4.1 "read-exact-N-bytes-as-text"
(`PSDParserBase.readString`). -/
def readString (s : Bytes) (p n : Nat) : Except PSDError (String × Nat) :=
  match readBytes s p n with
  | .error e => .error e
  | .ok (bs, p') => .ok (String.mk (bs.map (fun b => Char.ofNat (b % 256))), p')

/-- Modelled from the spec: §4.1/§4.5 — 2-byte big-endian read,
interpreted as signed 16-bit (`PSDParserBase.readShortInt`; the layer
count and channel ids require signedness). -/
def readShortInt (s : Bytes) (p : Nat) : Except PSDError (Int × Nat) :=
  match readBytes s p 2 with
  | .error e => .error e
  | .ok (bs, p') => .ok (toSigned16 (bytesToNatBE bs), p')

/-- Modelled from the spec: §4.1 — big-endian unsigned 32-bit read
(`PSDParserBase.readInt`). -/
def readInt (s : Bytes) (p : Nat) : Except PSDError (Nat × Nat) :=
  match readBytes s p 4 with
  | .error e => .error e
  | .ok (bs, p') => .ok (bytesToNatBE bs, p')

/-- Modelled from the spec: §4.1 — unsigned 8-bit read
(`PSDParserBase.readTinyInt`). -/
def readTinyInt (s : Bytes) (p : Nat) : Except PSDError (Nat × Nat) :=
  match readBytes s p 1 with
  | .error e => .error e
  | .ok (bs, p') => .ok (bytesToNatBE bs, p')

/-- The eight bits of a byte, most-significant first (index 0 = bit 7). -/
def byteBits (b : Nat) : List Bool :=
  [b / 128 % 2 == 1, b / 64 % 2 == 1, b / 32 % 2 == 1, b / 16 % 2 == 1,
   b / 8 % 2 == 1, b / 4 % 2 == 1, b / 2 % 2 == 1, b % 2 == 1]

/-- Modelled from the spec: §4.1 — "read N bytes and decompose the first
byte into its 8 individual bits (ordered most-significant-bit first,
index 0 = bit 7)" (`PSDParserBase.readBits`). -/
def readBits (s : Bytes) (p n : Nat) : Except PSDError (List Bool × Nat) :=
  match readBytes s p n with
  | .error e => .error e
  | .ok (bs, p') => .ok (byteBits (bs.headD 0 % 256), p')

/-- Modelled from the spec: §4.1 — "advance by N bytes without
interpretation" (`PSDParserBase.skip`; a relative `seek`, which does not
fail at end of source). -/
def skip (p n : Nat) : Nat := p + n

/-- Modelled from the spec: §4.4 — `PSDParserBase.updateLength` reads
the 32-bit section length field. -/
def updateLength (s : Bytes) (p : Nat) : Except PSDError (Nat × Nat) :=
  readInt s p

/-- Modelled from the spec: §4.1 — "read a fixed-size rectangle as four
big-endian signed 32-bit integers" (`PSDParserBase.getRectangle`). -/
def getRectangle (s : Bytes) (p : Nat) :
    Except PSDError ((Int × Int × Int × Int) × Nat) :=
  match readBytes s p 4 with
  | .error e => .error e
  | .ok (b0, p0) =>
    match readBytes s p0 4 with
    | .error e => .error e
    | .ok (b1, p1) =>
      match readBytes s p1 4 with
      | .error e => .error e
      | .ok (b2, p2) =>
        match readBytes s p2 4 with
        | .error e => .error e
        | .ok (b3, p3) =>
          .ok ((toSigned32 (bytesToNatBE b0), toSigned32 (bytesToNatBE b1),
                toSigned32 (bytesToNatBE b2), toSigned32 (bytesToNatBE b3)), p3)

/-! ### Constants of `PSDParserBase` (not in the given source tree). -/

/-- Modelled from the spec: §6 — the signature tag (`"8BPS"`-equivalent). -/
def SIGNATURE : String := "8BPS"

/-- Modelled from the spec: §6 — the version constant. -/
def VERSION : Int := 1

/-- Modelled from the spec: §6 — inclusive channel-count range [1,56]. -/
def CHANNELS_RANGE : Int × Int := (1, 56)

/-- Modelled from the spec: §6 — inclusive height/width range [1,30000]. -/
def SIZE_RANGE : Int × Int := (1, 30000)

/-- Modelled from the spec: §6 — allowed bit depths {1,8,16}. -/
def DEPTH_LIST : List Int := [1, 8, 16]

/-- Modelled from the spec: §6 — the blend-mode signature tag
(`"8BIM"`-equivalent; the source spells the attribute `SIGNATIRE_8BIM`). -/
def SIGNATIRE_8BIM : String := "8BIM"

/-! ### Header decoder (`PSDHeader.parse`). -/

/-- The decoded color mode: `self.colorMode = {"code": .., "label": ..}`. -/
structure ColorMode where
  code : Int
  label : String
deriving Repr, DecidableEq

/-- The fields of `PSDHeader` set by `parse`. -/
structure Header where
  signature : String
  version : Int
  channelsNum : Int
  height : Nat
  width : Nat
  depth : Int
  colorMode : ColorMode
deriving Repr, DecidableEq

/-- The fixed color-mode table of `PSDHeader.parse` (codes 5 and 6 absent). -/
def colorModeMap (c : Int) : Option String :=
  if c = 0 then some "Bitmap"
  else if c = 1 then some "Grayscale"
  else if c = 2 then some "Indexed Color"
  else if c = 3 then some "RGB Color"
  else if c = 4 then some "CMYK Color"
  else if c = 7 then some "Multichannel"
  else if c = 8 then some "Duotone"
  else if c = 9 then some "Lab Color"
  else none

/-- `PSDHeader.parse`: signature, version, 6 reserved bytes, channel
count, height, width, depth, color mode — each validated in order; the
color-mode dictionary lookup raises `KeyError` on an unknown code. -/
def parseHeader (s : Bytes) (p : Nat) : Except PSDError (Header × Nat) := do
  let (signature, p) ← readString s p 4
  validate "Signature" (.str signature) none (some (.str SIGNATURE)) none
  let (version, p) ← readShortInt s p
  validate "Version" (.int version) none (some (.int VERSION)) none
  let p := skip p 6
  let (channelsNum, p) ← readShortInt s p
  validate "Channels number" (.int channelsNum) (some CHANNELS_RANGE) none none
  let (height, p) ← readInt s p
  validate "Height" (.int height) (some SIZE_RANGE) none none
  let (width, p) ← readInt s p
  validate "Width" (.int width) (some SIZE_RANGE) none none
  let (depth, p) ← readShortInt s p
  validate "Depth" (.int depth) none none (some DEPTH_LIST)
  let (colorMode, p) ← readShortInt s p
  match colorModeMap colorMode with
  | some label => .ok (⟨signature, version, channelsNum, height, width, depth,
                        ⟨colorMode, label⟩⟩, p)
  | none => .error .keyError

/-! ### Color mode data / image resources (`PSDColorMode.parse`,
`PSDImageResources.parse`). -/

/-- The fields of `PSDColorMode` set by `parse` (`self.code = self.length`). -/
structure ColorModeSection where
  length : Nat
  code : Nat
deriving Repr, DecidableEq

/-- `PSDColorMode.parse`: read the 4-byte length, skip that many bytes. -/
def parseColorMode (s : Bytes) (p : Nat) :
    Except PSDError (ColorModeSection × Nat) := do
  let (length, p) ← updateLength s p
  let p := skip p length
  .ok (⟨length, length⟩, p)

/-- The field of `PSDImageResources` set by `parse`. -/
structure ImageResources where
  length : Nat
deriving Repr, DecidableEq

/-- `PSDImageResources.parse`: read the 4-byte length, skip that many bytes. -/
def parseImageResources (s : Bytes) (p : Nat) :
    Except PSDError (ImageResources × Nat) := do
  let (length, p) ← updateLength s p
  let p := skip p length
  .ok (⟨length⟩, p)

/-! ### Layer record decoder (`PSDLayer.parse`). -/

/-- A value of the `self.channels` dictionary: either a single declared
channel-data length or a list of them. -/
inductive ChanVal where
  | single (n : Nat)
  | multi (ns : List Nat)
deriving Repr, DecidableEq

/-- Insertion-ordered dictionary lookup (Python `dict`). -/
def dictGet (d : List (Int × ChanVal)) (k : Int) : Option ChanVal :=
  match d with
  | [] => none
  | (k', v) :: rest => if k' = k then some v else dictGet rest k

/-- Insertion-ordered dictionary update: replace in place if the key is
present, else append (Python `dict` assignment). -/
def dictSet (d : List (Int × ChanVal)) (k : Int) (v : ChanVal) :
    List (Int × ChanVal) :=
  match d with
  | [] => [(k, v)]
  | (k', v') :: rest =>
      if k' = k then (k, v) :: rest else (k', v') :: dictSet rest k v

/-- One iteration of the channel loop of `PSDLayer.parse`, exactly as in
the source: if the id is present and already holds a list, append the
new length; if it is present holding a single length, replace it by the
one-element list of the OLD length (the new length is dropped — the
source has no `append` in that branch); otherwise store the single
length. -/
def insertChannel (channels : List (Int × ChanVal)) (channelId : Int)
    (channelLength : Nat) : List (Int × ChanVal) :=
  match dictGet channels channelId with
  | some v =>
    match v with
    | .multi ns => dictSet channels channelId (.multi (ns ++ [channelLength]))
    | .single n => dictSet channels channelId (.multi [n])
  | none => dictSet channels channelId (.single channelLength)

/-- The channel loop of `PSDLayer.parse`: `n` iterations of (read signed
16-bit channel id, read 32-bit channel length, insert). -/
def parseChannels (s : Bytes) : Nat → Nat → List (Int × ChanVal) →
    Except PSDError (List (Int × ChanVal) × Nat)
  | 0, p, acc => .ok (acc, p)
  | n + 1, p, acc => do
    let (channelId, p) ← readShortInt s p
    let (channelLength, p) ← readInt s p
    parseChannels s n p (insertChannel acc channelId channelLength)

/-- The fixed blend-mode table of `PSDLayer.parse` (14 entries). -/
def blendMap (k : String) : Option String :=
  if k = "norm" then some "normal"
  else if k = "dark" then some "darken"
  else if k = "lite" then some "lighten"
  else if k = "hue" then some "hue"
  else if k = "sat" then some "saturation"
  else if k = "colr" then some "color"
  else if k = "lum" then some "luminosity"
  else if k = "mul" then some "multiply"
  else if k = "scrn" then some "screen"
  else if k = "diss" then some "dissolve"
  else if k = "over" then some "overlay"
  else if k = "hLit" then some "hard light"
  else if k = "sLit" then some "soft light"
  else if k = "diff" then some "difference"
  else none

/-- The clipping table of `PSDLayer.parse`. -/
def clippingMap (c : Nat) : Option String :=
  if c = 0 then some "base" else if c = 1 then some "non-base" else none

/-- The fields of `PSDLayer` set by `parse`. -/
structure Layer where
  rectangle : Int × Int × Int × Int
  chanelsCount : Int
  channels : List (Int × ChanVal)
  blend : String × String
  opacity : Nat
  clipping : Nat × String
  transpProtected : Bool
  visible : Bool
deriving Repr, DecidableEq

/-- `PSDLayer.parse`: rectangle; channel count; channel loop; blend
signature (asserted equal to `SIGNATIRE_8BIM`); blend key (dictionary
lookup, `KeyError` when unknown); opacity; clipping code (dictionary
lookup); flags byte decomposed into bits, `transpProtected` from bit
index 0 and `visible` from bit index 1 of the MSB-first bit list. -/
def parseLayer (s : Bytes) (p : Nat) : Except PSDError (Layer × Nat) := do
  let (rectangle, p) ← getRectangle s p
  let (chanelsCount, p) ← readShortInt s p
  let (channels, p) ← parseChannels s chanelsCount.toNat p []
  let (bimSignature, p) ← readString s p 4
  if bimSignature = SIGNATIRE_8BIM then
    let (blendCode, p) ← readString s p 4
    match blendMap blendCode with
    | none => .error .keyError
    | some blendName =>
      let (opacity, p) ← readTinyInt s p
      let (clippingCode, p) ← readTinyInt s p
      match clippingMap clippingCode with
      | none => .error .keyError
      | some clipName =>
        let (flagsBits, p) ← readBits s p 1
        .ok (⟨rectangle, chanelsCount, channels, (blendCode, blendName),
              opacity, (clippingCode, clipName),
              flagsBits.getD 0 false, flagsBits.getD 1 false⟩, p)
  else .error .assertionError

/-! ### Layer & mask decoder (`PSDLayerMask.parse`). -/

/-- The fields of `PSDLayerMask` set by `parse`.  `layersCount` holds the
value after the negative case is replaced by its absolute value, exactly
as the source reassigns `self.layersCount`.  There is no merged-alpha
field: the sign of the count is not stored. -/
structure LayerMask where
  length : Nat
  layerInfoLength : Nat
  layersCount : Int
  layers : List Layer
  masklength : Nat
deriving Repr, DecidableEq

/-- The layer loop of `PSDLayerMask.parse`: decode `n` layer records in
sequence. -/
def parseLayers (s : Bytes) : Nat → Nat → Except PSDError (List Layer × Nat)
  | 0, p => .ok ([], p)
  | n + 1, p => do
    let (layer, p) ← parseLayer s p
    let (rest, p) ← parseLayers s n p
    .ok (layer :: rest, p)

/-- `PSDLayerMask.parse`: section length; layer-info length; signed
16-bit layer count, replaced by its absolute value when negative; that
many layer records; mask-data length; skip the mask data.  The source
performs no check that the bytes consumed match the declared section
length. -/
def parseLayerMask (s : Bytes) (p : Nat) : Except PSDError (LayerMask × Nat) := do
  let (length, p) ← updateLength s p
  let (layerInfoLength, p) ← readInt s p
  let (count, p) ← readShortInt s p
  let layersCount : Int := if count < 0 then |count| else count
  let (layers, p) ← parseLayers s layersCount.toNat p
  let (masklength, p) ← readInt s p
  let p := skip p masklength
  .ok (⟨length, layerInfoLength, layersCount, layers, masklength⟩, p)

/-! ### Concrete byte-level inputs used in the theorems. -/

/-- Big-endian 2-byte encoding of a natural number (mod 2^16). -/
def be16 (n : Nat) : Bytes := [n / 256 % 256, n % 256]

/-- Big-endian 4-byte encoding of a natural number (mod 2^32). -/
def be32 (n : Nat) : Bytes :=
  [n / 16777216 % 256, n / 65536 % 256, n / 256 % 256, n % 256]

/-- The bytes of an ASCII string. -/
def strBytes (s : String) : Bytes := s.data.map Char.toNat

/-- A 26-byte header record: signature `"8BPS"`, version 1, six reserved
zero bytes, then the given channel count, height, width, depth and
color-mode code. -/
def mkHeader (ch h w d m : Nat) : Bytes :=
  strBytes "8BPS" ++ be16 1 ++ [0, 0, 0, 0, 0, 0] ++ be16 ch ++ be32 h ++
    be32 w ++ be16 d ++ be16 m

/-- Big-endian 2-byte two's-complement encoding of a signed 16-bit value. -/
def sbe16 (i : Int) : Bytes := be16 ((i % 65536).toNat)

/-- A layer record with the given channel entries (id, length), blend
key and flags byte: zero rectangle, the channel table, `"8BIM"`, the
key, opacity 255, clipping 0, the flags byte. -/
def mkLayer (chans : List (Int × Nat)) (key : String) (flags : Nat) : Bytes :=
  List.replicate 16 0 ++ be16 chans.length ++
    (chans.flatMap (fun c => sbe16 c.1 ++ be32 c.2)) ++
    strBytes "8BIM" ++ strBytes key ++ [255, 0, flags]

/-! ### Helper lemmas. -/

instance {ε α : Type} [DecidableEq ε] [DecidableEq α] :
    DecidableEq (Except ε α) := fun a b =>
  match a, b with
  | .ok x, .ok y =>
      if h : x = y then .isTrue (by rw [h]) else .isFalse (by simp [h])
  | .error e, .error e' =>
      if h : e = e' then .isTrue (by rw [h]) else .isFalse (by simp [h])
  | .ok _, .error _ => .isFalse (by simp)
  | .error _, .ok _ => .isFalse (by simp)

theorem except_bind_ok {α β ε : Type} (a : α) (f : α → Except ε β) :
    (Except.ok a >>= f) = f a := rfl

theorem except_bind_error {α β ε : Type} (e : ε) (f : α → Except ε β) :
    ((Except.error e : Except ε α) >>= f) = Except.error e := rfl

theorem except_bind_eq_ok {α β ε : Type} {x : Except ε α} {f : α → Except ε β}
    {b : β} (h : (x >>= f) = .ok b) : ∃ a, x = .ok a ∧ f a = .ok b := by
  cases x with
  | error e => exact absurd h (by simp [except_bind_error])
  | ok a => exact ⟨a, rfl, h⟩

theorem readBytes_pos {s : Bytes} {p n : Nat} {bs : Bytes} {p' : Nat}
    (h : readBytes s p n = .ok (bs, p')) : p' = p + n := by
  unfold readBytes at h
  split at h
  · exact (Prod.mk.injEq .. ▸ Except.ok.inj h).2.symm ▸ rfl
  · exact absurd h (by simp)

theorem readInt_pos {s : Bytes} {p : Nat} {v : Nat} {p' : Nat}
    (h : readInt s p = .ok (v, p')) : p' = p + 4 := by
  unfold readInt at h
  cases hb : readBytes s p 4 with
  | error e => rw [hb] at h; exact absurd h (by simp)
  | ok bp =>
      obtain ⟨bs, q⟩ := bp
      rw [hb] at h
      obtain ⟨-, rfl⟩ : bytesToNatBE bs = v ∧ q = p' := by simpa using h
      exact readBytes_pos hb

theorem readShortInt_pos {s : Bytes} {p : Nat} {v : Int} {p' : Nat}
    (h : readShortInt s p = .ok (v, p')) : p' = p + 2 := by
  unfold readShortInt at h
  cases hb : readBytes s p 2 with
  | error e => rw [hb] at h; exact absurd h (by simp)
  | ok bp =>
      obtain ⟨bs, q⟩ := bp
      rw [hb] at h
      obtain ⟨-, rfl⟩ : toSigned16 (bytesToNatBE bs) = v ∧ q = p' := by
        simpa using h
      exact readBytes_pos hb

theorem parseLayers_length {s : Bytes} :
    ∀ {n p ls p'}, parseLayers s n p = .ok (ls, p') → ls.length = n := by
  intro n
  induction n with
  | zero =>
      intro p ls p' h
      unfold parseLayers at h
      cases h
      rfl
  | succ k ih =>
      intro p ls p' h
      unfold parseLayers at h
      cases h1 : parseLayer s p with
      | error e => rw [h1] at h; exact absurd h (by simp [except_bind_error])
      | ok lp =>
          obtain ⟨layer, p2⟩ := lp
          rw [h1, except_bind_ok] at h
          dsimp only at h
          cases h2 : parseLayers s k p2 with
          | error e => rw [h2] at h; exact absurd h (by simp [except_bind_error])
          | ok rp =>
              obtain ⟨rest, p3⟩ := rp
              rw [h2, except_bind_ok] at h
              cases h
              simpa using ih (by rw [h2])

/-! ### Claim theorems. -/

/-- C1: a layer whose channel table repeats an id does NOT keep both
lengths.  On a layer with channel entries (id 0, length 5) then (id 0,
length 7), `PSDLayer.parse` maps id 0 to the one-element list `[5]`: the
duplicate branch wraps the first length in a list but never appends the
second, so length 7 is lost — refuting the claim that the mapping holds
`[5, 7]`. -/
theorem duplicate_channel_second_length_dropped :
    parseLayer (mkLayer [(0, 5), (0, 7)] "norm" 0) 0 =
      .ok (⟨(0, 0, 0, 0), 2, [(0, .multi [5])], ("norm", "normal"), 255,
            (0, "base"), false, false⟩, 41) ∧
    ((parseLayer (mkLayer [(0, 5), (0, 7)] "norm" 0) 0).map
        fun r => r.1.channels) ≠ .ok [(0, ChanVal.multi [5, 7])] := by
  decide

/-- C2: the two layer flags do not come from bits 0 and 1 (the two
least-significant bits) of the flags byte.  `readBits` orders bits
most-significant first, and `PSDLayer.parse` takes indices 0 and 1 of
that list, i.e. bits 7 and 6: a flags byte of 1 (bit 0 set) or 3 (bits 0
and 1 set) yields `(false, false)`, while bytes 128 and 64 (bits 7 and
6) set `transpProtected` and `visible` respectively. -/
theorem flags_bits_taken_msb_first :
    ((parseLayer (mkLayer [] "norm" 1) 0).map
        fun r => (r.1.transpProtected, r.1.visible)) = .ok (false, false) ∧
    ((parseLayer (mkLayer [] "norm" 3) 0).map
        fun r => (r.1.transpProtected, r.1.visible)) = .ok (false, false) ∧
    ((parseLayer (mkLayer [] "norm" 128) 0).map
        fun r => (r.1.transpProtected, r.1.visible)) = .ok (true, false) ∧
    ((parseLayer (mkLayer [] "norm" 64) 0).map
        fun r => (r.1.transpProtected, r.1.visible)) = .ok (false, true) := by
  decide

/-- A layer-and-mask section declaring total length 100 whose body (layer
info length 0, layer count 0, mask length 0) occupies only 10 bytes
after the length field. -/
def lmBytesMismatch : Bytes := be32 100 ++ be32 0 ++ sbe16 0 ++ be32 0

/-- C3: a declared-length mismatch in the layer-and-mask section is NOT
surfaced.  On `lmBytesMismatch` the decode completes successfully with
the cursor at 14, although the declared length requires 4 + 100 = 104:
`PSDLayerMask.parse` contains no consistency check, and no raise site of
the source corresponds to StructuralInconsistency at all. -/
theorem layer_mask_length_mismatch_not_surfaced :
    parseLayerMask lmBytesMismatch 0 = .ok (⟨100, 0, 0, [], 0⟩, 14) ∧
    (14 : Nat) ≠ 4 + 100 := by
  decide

/-- C10: `validate` with a falsy `mustBe` argument performs no check at
all: the exact-match branch is guarded by the truthiness of `mustBe`,
and with `range` and `list` absent no other branch fires, so no error is
raised for any observed value. -/
theorem validate_falsy_mustBe_no_error (label : String) (v : PyVal)
    (m : Option PyVal) (h : truthyOpt m = false) :
    validate label v none m none = .ok () := by
  simp [validate, h, truthyRange, truthyList]

/-- Witness for C10: an expected value of `0` is falsy, and
`validate("Version", 5, mustBe=0)` raises no error although 5 ≠ 0. -/
theorem validate_falsy_mustBe_no_error_witness :
    PyVal.int 5 ≠ PyVal.int 0 ∧
    validate "Version" (.int 5) none (some (.int 0)) none = .ok () :=
  ⟨by decide, validate_falsy_mustBe_no_error "Version" (.int 5)
      (some (.int 0)) (by decide)⟩

/-- C9: whenever the 4-byte signature read succeeds but yields a string
different from the fixed tag, header decoding fails with the
FormatMismatch error naming the field "Signature". -/
theorem bad_signature_formatMismatch {s : Bytes} {sig : String} {q : Nat}
    (hread : readString s 0 4 = .ok (sig, q)) (hne : sig ≠ SIGNATURE) :
    parseHeader s 0 =
      .error (.formatMismatch "Signature" (.str SIGNATURE) (.str sig)) := by
  have hval : validate "Signature" (.str sig) none (some (.str SIGNATURE)) none
      = .error (.formatMismatch "Signature" (.str SIGNATURE) (.str sig)) := by
    rw [SIGNATURE] at hne ⊢
    simp [validate, truthyOpt, PyVal.truthy, hne]
  unfold parseHeader
  rw [hread, except_bind_ok]
  dsimp only
  rw [hval, except_bind_error]

/-- Witness for C9: signature bytes "8BPT" fail with FormatMismatch
naming "Signature". -/
theorem bad_signature_formatMismatch_witness :
    parseHeader (strBytes "8BPT") 0 =
      .error (.formatMismatch "Signature" (.str SIGNATURE) (.str "8BPT")) :=
  @bad_signature_formatMismatch (strBytes "8BPT") "8BPT" 4 (by decide) (by decide)

/-- The declared length of a length-prefixed section: the big-endian
value of the four bytes at the cursor. -/
def declaredLen (s : Bytes) (p : Nat) : Nat := bytesToNatBE ((s.drop p).take 4)

/-- C8: for any byte source holding the 4-byte length field at the
cursor, decoding Color Mode Data or Image Resources succeeds and leaves
the cursor exactly at its starting offset plus 4 plus the declared
length — for every declared length including 0. -/
theorem section_length_accounting (s : Bytes) (p : Nat)
    (h : p + 4 ≤ s.length) :
    parseColorMode s p =
      .ok (⟨declaredLen s p, declaredLen s p⟩, p + 4 + declaredLen s p) ∧
    parseImageResources s p =
      .ok (⟨declaredLen s p⟩, p + 4 + declaredLen s p) := by
  have hread : readInt s p = .ok (declaredLen s p, p + 4) := by
    unfold readInt readBytes declaredLen
    rw [if_pos h]
  constructor
  · unfold parseColorMode updateLength
    rw [hread, except_bind_ok]
    rfl
  · unfold parseImageResources updateLength
    rw [hread, except_bind_ok]
    rfl

/-- A color-mode/image-resources section declaring length 3 followed by
its 3 payload bytes. -/
def csBytes : Bytes := be32 3 ++ [9, 9, 9]

/-- Witness for C8: declared length 3 at offset 0; both section decoders
finish at offset 0 + 4 + 3. -/
theorem section_length_accounting_witness :
    declaredLen csBytes 0 = 3 ∧
    parseColorMode csBytes 0 =
      .ok (⟨declaredLen csBytes 0, declaredLen csBytes 0⟩,
           0 + 4 + declaredLen csBytes 0) ∧
    parseImageResources csBytes 0 =
      .ok (⟨declaredLen csBytes 0⟩, 0 + 4 + declaredLen csBytes 0) :=
  ⟨by decide, (section_length_accounting csBytes 0 (by decide)).1,
    (section_length_accounting csBytes 0 (by decide)).2⟩

/-- C6: whenever the layer-and-mask decode succeeds and the signed
16-bit layer count read at offset +8 (after the two 4-byte length
fields) is negative, the result holds exactly the absolute value of that
count as `layersCount` and decodes exactly that many Layer records; the
`LayerMask` result carries nothing beyond the five stored fields, so no
merged-alpha artifact is produced. -/
theorem negative_layer_count_abs {s : Bytes} {p : Nat} {res : LayerMask}
    {q : Nat} {c : Int} {pc : Nat}
    (hparse : parseLayerMask s p = .ok (res, q))
    (hcount : readShortInt s (p + 8) = .ok (c, pc)) (hneg : c < 0) :
    res.layersCount = (c.natAbs : Int) ∧ res.layers.length = c.natAbs := by
  unfold parseLayerMask updateLength at hparse
  cases h1 : readInt s p with
  | error e => rw [h1] at hparse; exact absurd hparse (by simp [except_bind_error])
  | ok lp =>
      obtain ⟨len, p1⟩ := lp
      obtain rfl : p1 = p + 4 := readInt_pos h1
      rw [h1, except_bind_ok] at hparse
      dsimp only at hparse
      cases h2 : readInt s (p + 4) with
      | error e => rw [h2] at hparse; exact absurd hparse (by simp [except_bind_error])
      | ok lp2 =>
          obtain ⟨lil, p2⟩ := lp2
          obtain rfl : p2 = p + 4 + 4 := readInt_pos h2
          rw [h2, except_bind_ok] at hparse
          dsimp only at hparse
          have h8 : p + 4 + 4 = p + 8 := by omega
          rw [h8, hcount, except_bind_ok] at hparse
          dsimp only at hparse
          rw [if_pos hneg] at hparse
          cases h3 : parseLayers s (|c|).toNat pc with
          | error e => rw [h3] at hparse; exact absurd hparse (by simp [except_bind_error])
          | ok lsp =>
              obtain ⟨ls, p3⟩ := lsp
              rw [h3, except_bind_ok] at hparse
              dsimp only at hparse
              cases h4 : readInt s p3 with
              | error e => rw [h4] at hparse; exact absurd hparse (by simp [except_bind_error])
              | ok mp =>
                  obtain ⟨ml, p4⟩ := mp
                  rw [h4, except_bind_ok] at hparse
                  dsimp only at hparse
                  obtain ⟨h5, -⟩ : (⟨len, lil, |c|, ls, ml⟩ : LayerMask) = res ∧
                      skip p4 ml = q := by simpa using hparse
                  subst h5
                  have hlen := parseLayers_length h3
                  constructor
                  · exact Int.abs_eq_natAbs c
                  · show ls.length = c.natAbs
                    rw [hlen, Int.abs_eq_natAbs, Int.toNat_natCast]

/-- A layer-and-mask section: declared length 99, layer-info length 95,
layer count −3, three minimal layer records, mask length 0. -/
def lmBytesNeg : Bytes :=
  be32 99 ++ be32 95 ++ sbe16 (-3) ++ mkLayer [] "norm" 0 ++
    mkLayer [] "norm" 0 ++ mkLayer [] "norm" 0 ++ be32 0

/-- The minimal layer record decoded from `mkLayer [] "norm" 0`. -/
def normLayerRes : Layer :=
  ⟨(0, 0, 0, 0), 0, [], ("norm", "normal"), 255, (0, "base"), false, false⟩

/-- The layer-and-mask record decoded from `lmBytesNeg`. -/
def lmResNeg : LayerMask := ⟨99, 95, 3, [normLayerRes, normLayerRes, normLayerRes], 0⟩

set_option maxRecDepth 8000 in
/-- Witness for C6: a layer-count field of −3 decodes exactly 3 Layer
records. -/
theorem negative_layer_count_abs_witness :
    lmResNeg.layersCount = 3 ∧ lmResNeg.layers.length = 3 := by
  have h1 : parseLayerMask lmBytesNeg 0 = .ok (lmResNeg, 101) := by decide
  have h2 : readShortInt lmBytesNeg 8 = .ok (-3, 10) := by decide
  simpa using negative_layer_count_abs h1 h2 (by decide)

/-- C7: a successful layer decode never passes an unknown blend key
through and never substitutes a default name — the stored pair is always
a key of the fixed 14-entry table with its table name; and on a concrete
layer whose blend key "xxxx" is not in the table, the decode fails (with
the dictionary-lookup error). -/
theorem unknown_blend_key_rejected :
    (∀ {s : Bytes} {p : Nat} {r : Layer} {q : Nat},
        parseLayer s p = .ok (r, q) → blendMap r.blend.1 = some r.blend.2) ∧
    parseLayer (mkLayer [] "xxxx" 0) 0 = .error .keyError := by
  constructor
  · intro s p r q h
    unfold parseLayer at h
    obtain ⟨⟨rect, p1⟩, h1, h⟩ := except_bind_eq_ok h
    dsimp only at h
    obtain ⟨⟨cnt, p2⟩, h2, h⟩ := except_bind_eq_ok h
    dsimp only at h
    obtain ⟨⟨chans, p3⟩, h3, h⟩ := except_bind_eq_ok h
    dsimp only at h
    obtain ⟨⟨bim, p4⟩, h4, h⟩ := except_bind_eq_ok h
    dsimp only at h
    by_cases hbim : bim = SIGNATIRE_8BIM
    · rw [if_pos hbim] at h
      obtain ⟨⟨key, p5⟩, h5, h⟩ := except_bind_eq_ok h
      dsimp only at h
      cases hblend : blendMap key with
      | none => rw [hblend] at h; exact absurd h (by simp)
      | some blendName =>
          rw [hblend] at h
          dsimp only at h
          obtain ⟨⟨opac, p6⟩, h6, h⟩ := except_bind_eq_ok h
          dsimp only at h
          obtain ⟨⟨clip, p7⟩, h7, h⟩ := except_bind_eq_ok h
          dsimp only at h
          cases hclip : clippingMap clip with
          | none => rw [hclip] at h; exact absurd h (by simp)
          | some clipName =>
              rw [hclip] at h
              dsimp only at h
              obtain ⟨⟨bits, p8⟩, h8, h⟩ := except_bind_eq_ok h
              dsimp only at h
              obtain ⟨h9, -⟩ :
                  (⟨rect, cnt, chans, (key, blendName), opac, (clip, clipName),
                    bits.getD 0 false, bits.getD 1 false⟩ : Layer) = r ∧ p8 = q := by
                simpa using h
              subst h9
              simpa using hblend
    · rw [if_neg hbim] at h
      exact absurd h (by simp)
  · decide

/-- Witness for C7: applying the success half to the decoded minimal
layer with blend key "norm" recovers its table entry. -/
theorem unknown_blend_key_rejected_witness :
    blendMap normLayerRes.blend.1 = some normLayerRes.blend.2 :=
  unknown_blend_key_rejected.1
    (show parseLayer (mkLayer [] "norm" 0) 0 = .ok (normLayerRes, 29) by decide)

theorem toSigned16_of_lt {d : Nat} (hd : d < 32768) :
    toSigned16 (bytesToNatBE [d / 256 % 256, d % 256]) = (d : Int) := by
  have hval : bytesToNatBE [d / 256 % 256, d % 256] = d := by
    unfold bytesToNatBE
    simp only [List.foldl]
    omega
  rw [hval]
  unfold toSigned16
  rw [if_pos (show d % 65536 < 32768 by omega)]
  rw [Nat.mod_eq_of_lt (show d < 65536 by omega)]

/-- Decoding a 26-byte header whose first six fields are fixed and valid
(`"8BPS"`, version 1, channels 3, height 10, width 10) reaches the depth
validation and then the color-mode table lookup: the result is entirely
determined by whether the depth is in `DEPTH_LIST` and by
`colorModeMap` on the mode code. -/
theorem parseHeader_depth_mode (d m : Nat) (hd : d < 32768) (hm : m < 32768) :
    parseHeader (mkHeader 3 10 10 d m) 0 =
      if inPyList (.int (d : Int)) DEPTH_LIST then
        (match colorModeMap (m : Int) with
         | some label =>
             .ok (⟨"8BPS", 1, 3, 10, 10, (d : Int), ⟨(m : Int), label⟩⟩, 26)
         | none => .error .keyError)
      else .error (.rangeViolationSet "Depth" DEPTH_LIST (.int (d : Int))) := by
  have hd16 : readShortInt (mkHeader 3 10 10 d m) 22 = .ok ((d : Int), 24) := by
    have h0 : readShortInt (mkHeader 3 10 10 d m) 22 =
        .ok (toSigned16 (bytesToNatBE [d / 256 % 256, d % 256]), 24) := rfl
    rw [h0, toSigned16_of_lt hd]
  have hm16 : readShortInt (mkHeader 3 10 10 d m) 24 = .ok ((m : Int), 26) := by
    have h0 : readShortInt (mkHeader 3 10 10 d m) 24 =
        .ok (toSigned16 (bytesToNatBE [m / 256 % 256, m % 256]), 26) := rfl
    rw [h0, toSigned16_of_lt hm]
  have e1 : readString (mkHeader 3 10 10 d m) 0 4 = .ok ("8BPS", 4) := rfl
  have e2 : validate "Signature" (.str "8BPS") none (some (.str SIGNATURE))
      none = .ok () := rfl
  have e3 : readShortInt (mkHeader 3 10 10 d m) 4 = .ok (1, 6) := rfl
  have e4 : validate "Version" (.int 1) none (some (.int VERSION)) none
      = .ok () := rfl
  have e5 : readShortInt (mkHeader 3 10 10 d m) (skip 6 6) = .ok (3, 14) := rfl
  have e6 : validate "Channels number" (.int 3) (some CHANNELS_RANGE) none
      none = .ok () := rfl
  have e7 : readInt (mkHeader 3 10 10 d m) 14 = .ok (10, 18) := rfl
  have e8 : validate "Height" (.int ((10 : Nat) : Int)) (some SIZE_RANGE)
      none none = .ok () := rfl
  have e9 : readInt (mkHeader 3 10 10 d m) 18 = .ok (10, 22) := rfl
  have e10 : validate "Width" (.int ((10 : Nat) : Int)) (some SIZE_RANGE)
      none none = .ok () := rfl
  unfold parseHeader
  rw [e1, except_bind_ok]
  dsimp only
  rw [e2, except_bind_ok]
  rw [e3, except_bind_ok]
  dsimp only
  rw [e4, except_bind_ok]
  rw [e5, except_bind_ok]
  dsimp only
  rw [e6, except_bind_ok]
  rw [e7, except_bind_ok]
  dsimp only
  rw [e8, except_bind_ok]
  rw [e9, except_bind_ok]
  dsimp only
  rw [e10, except_bind_ok]
  rw [hd16, except_bind_ok]
  dsimp only
  by_cases hmem : inPyList (.int (d : Int)) DEPTH_LIST
  · rw [if_pos hmem]
    have hvd : validate "Depth" (.int (d : Int)) none none (some DEPTH_LIST)
        = .ok () := by
      have htl : truthyList (some DEPTH_LIST) = true := rfl
      simp [validate, truthyOpt, truthyRange, htl, hmem]
    rw [hvd, except_bind_ok]
    rw [hm16, except_bind_ok]
  · rw [if_neg hmem]
    have hvd : validate "Depth" (.int (d : Int)) none none (some DEPTH_LIST)
        = .error (.rangeViolationSet "Depth" DEPTH_LIST (.int (d : Int))) := by
      have htl : truthyList (some DEPTH_LIST) = true := rfl
      simp [validate, truthyOpt, truthyRange, htl, hmem]
    rw [hvd, except_bind_error]

/-- C4: with the other fields valid, header decoding succeeds for
channel count exactly 1 and 56, height and width exactly 1 and 30000,
and depth 1, 8, 16; it fails with the RangeViolation of the `range`
branch for channel count 0 and 57, height 0 and 30001, width 0 and
30001, and with the RangeViolation of the allowed-set branch for every
16-bit depth outside {1,8,16} (stated first, for all such depths). -/
theorem header_bounds_validation :
    (∀ d : Nat, d < 32768 → d ≠ 1 → d ≠ 8 → d ≠ 16 →
        parseHeader (mkHeader 3 10 10 d 3) 0 =
          .error (.rangeViolationSet "Depth" DEPTH_LIST (.int (d : Int)))) ∧
    parseHeader (mkHeader 1 10 10 8 3) 0 =
      .ok (⟨"8BPS", 1, 1, 10, 10, 8, ⟨3, "RGB Color"⟩⟩, 26) ∧
    parseHeader (mkHeader 56 10 10 8 3) 0 =
      .ok (⟨"8BPS", 1, 56, 10, 10, 8, ⟨3, "RGB Color"⟩⟩, 26) ∧
    parseHeader (mkHeader 3 1 10 8 3) 0 =
      .ok (⟨"8BPS", 1, 3, 1, 10, 8, ⟨3, "RGB Color"⟩⟩, 26) ∧
    parseHeader (mkHeader 3 30000 10 8 3) 0 =
      .ok (⟨"8BPS", 1, 3, 30000, 10, 8, ⟨3, "RGB Color"⟩⟩, 26) ∧
    parseHeader (mkHeader 3 10 1 8 3) 0 =
      .ok (⟨"8BPS", 1, 3, 10, 1, 8, ⟨3, "RGB Color"⟩⟩, 26) ∧
    parseHeader (mkHeader 3 10 30000 8 3) 0 =
      .ok (⟨"8BPS", 1, 3, 10, 30000, 8, ⟨3, "RGB Color"⟩⟩, 26) ∧
    parseHeader (mkHeader 3 10 10 1 3) 0 =
      .ok (⟨"8BPS", 1, 3, 10, 10, 1, ⟨3, "RGB Color"⟩⟩, 26) ∧
    parseHeader (mkHeader 3 10 10 16 3) 0 =
      .ok (⟨"8BPS", 1, 3, 10, 10, 16, ⟨3, "RGB Color"⟩⟩, 26) ∧
    parseHeader (mkHeader 0 10 10 8 3) 0 =
      .error (.rangeViolation "Channels number" 1 56 (.int 0)) ∧
    parseHeader (mkHeader 57 10 10 8 3) 0 =
      .error (.rangeViolation "Channels number" 1 56 (.int 57)) ∧
    parseHeader (mkHeader 3 0 10 8 3) 0 =
      .error (.rangeViolation "Height" 1 30000 (.int 0)) ∧
    parseHeader (mkHeader 3 30001 10 8 3) 0 =
      .error (.rangeViolation "Height" 1 30000 (.int 30001)) ∧
    parseHeader (mkHeader 3 10 0 8 3) 0 =
      .error (.rangeViolation "Width" 1 30000 (.int 0)) ∧
    parseHeader (mkHeader 3 10 30001 8 3) 0 =
      .error (.rangeViolation "Width" 1 30000 (.int 30001)) := by
  refine ⟨?_, by decide, by decide, by decide, by decide, by decide, by decide,
    by decide, by decide, by decide, by decide, by decide, by decide, by decide,
    by decide⟩
  intro d hlt h1 h8 h16
  have hmem : ¬ inPyList (.int (d : Int)) DEPTH_LIST = true := by
    simp [inPyList, DEPTH_LIST]
    omega
  rw [parseHeader_depth_mode d 3 hlt (by decide), if_neg hmem]

/-- Witness for C4: depth 4 (cited by the spec as an invalid example) is
rejected with the allowed-set RangeViolation. -/
theorem header_bounds_validation_witness :
    parseHeader (mkHeader 3 10 10 4 3) 0 =
      .error (.rangeViolationSet "Depth" DEPTH_LIST (.int 4)) :=
  header_bounds_validation.1 4 (by decide) (by decide) (by decide) (by decide)

/-- C5: the color-mode codes 0,1,2,3,4,7,8,9 decode to their documented
labels; every decoded code greater than 9 makes header decoding fail
(with the dictionary-lookup error), the fixed table maps 5, 6 and every
code above 9 to nothing, and codes 5 and 6 concretely fail. -/
theorem color_mode_lookup :
    (∀ m : Nat, 9 < m → m < 32768 →
        parseHeader (mkHeader 3 10 10 8 m) 0 = .error .keyError) ∧
    (∀ c : Int, c = 5 ∨ c = 6 ∨ 9 < c → colorModeMap c = none) ∧
    parseHeader (mkHeader 3 10 10 8 0) 0 =
      .ok (⟨"8BPS", 1, 3, 10, 10, 8, ⟨0, "Bitmap"⟩⟩, 26) ∧
    parseHeader (mkHeader 3 10 10 8 1) 0 =
      .ok (⟨"8BPS", 1, 3, 10, 10, 8, ⟨1, "Grayscale"⟩⟩, 26) ∧
    parseHeader (mkHeader 3 10 10 8 2) 0 =
      .ok (⟨"8BPS", 1, 3, 10, 10, 8, ⟨2, "Indexed Color"⟩⟩, 26) ∧
    parseHeader (mkHeader 3 10 10 8 3) 0 =
      .ok (⟨"8BPS", 1, 3, 10, 10, 8, ⟨3, "RGB Color"⟩⟩, 26) ∧
    parseHeader (mkHeader 3 10 10 8 4) 0 =
      .ok (⟨"8BPS", 1, 3, 10, 10, 8, ⟨4, "CMYK Color"⟩⟩, 26) ∧
    parseHeader (mkHeader 3 10 10 8 7) 0 =
      .ok (⟨"8BPS", 1, 3, 10, 10, 8, ⟨7, "Multichannel"⟩⟩, 26) ∧
    parseHeader (mkHeader 3 10 10 8 8) 0 =
      .ok (⟨"8BPS", 1, 3, 10, 10, 8, ⟨8, "Duotone"⟩⟩, 26) ∧
    parseHeader (mkHeader 3 10 10 8 9) 0 =
      .ok (⟨"8BPS", 1, 3, 10, 10, 8, ⟨9, "Lab Color"⟩⟩, 26) ∧
    parseHeader (mkHeader 3 10 10 8 5) 0 = .error .keyError ∧
    parseHeader (mkHeader 3 10 10 8 6) 0 = .error .keyError := by
  have hmap : ∀ c : Int, c = 5 ∨ c = 6 ∨ 9 < c → colorModeMap c = none := by
    intro c hc
    unfold colorModeMap
    split_ifs <;> first | rfl | omega
  refine ⟨?_, hmap, by decide, by decide, by decide, by decide, by decide,
    by decide, by decide, by decide, by decide, by decide⟩
  intro m h9 hm
  rw [parseHeader_depth_mode 8 m (by decide) hm, if_pos (by decide),
    hmap (m : Int) (Or.inr (Or.inr (by exact_mod_cast h9)))]

/-- Witness for C5: the decoded code 10 (> 9) makes header decoding
fail. -/
theorem color_mode_lookup_witness :
    parseHeader (mkHeader 3 10 10 8 10) 0 = .error .keyError :=
  color_mode_lookup.1 10 (by decide) (by decide)

end PyPSD
